import Mathlib

/-!
Verification of the Techpulse software-package subsystem.

This file shallowly embeds the code of `app/infrastructure/checksum.py`,
`app/infrastructure/storage/local_fs.py`, `app/domain/software_package.py`,
`app/repositories/software_package.py`, `app/services/software_package_service.py`
and `app/api/v1/software_packages.py` into Lean, and proves the stated
properties about the embedded definitions.

Conventions used throughout:
- Python byte strings are `List Nat` (each entry a byte value).
- Python `int` fields that can be negative are `Int`; sizes that are always
  produced by length measurements are `Nat`.
- Each `with self.uow:` transaction block is modelled atomically: an
  exception inside a block discards that block's writes (SQLAlchemy
  rollback in `UnitOfWork.__exit__`), while blocks that finish commit;
  a method that runs several blocks in sequence keeps the commits of the
  blocks that completed before an error.
-/

namespace Techpulse

/-! ## SHA-256 (model of Python `hashlib.sha256`)

`hashlib.sha256` is standard-library code; it is embedded as an executable
SHA-256 over byte lists so the digest function is concrete.  32-bit words are
`Nat` reduced mod `2 ^ 32` where overflow matters. -/

def w32 : Nat := 4294967296

def add32 (a b : Nat) : Nat := (a + b) % w32

def rotr32 (x n : Nat) : Nat := ((x >>> n) ||| (x <<< (32 - n))) % w32

def shr32 (x n : Nat) : Nat := x >>> n

def not32 (x : Nat) : Nat := x ^^^ 4294967295

def sha256K : List Nat :=
  [1116352408, 1899447441, 3049323471, 3921009573, 961987163, 1508970993,
   2453635748, 2870763221, 3624381080, 310598401, 607225278, 1426881987,
   1925078388, 2162078206, 2614888103, 3248222580, 3835390401, 4022224774,
   264347078, 604807628, 770255983, 1249150122, 1555081692, 1996064986,
   2554220882, 2821834349, 2952996808, 3210313671, 3336571891, 3584528711,
   113926993, 338241895, 666307205, 773529912, 1294757372, 1396182291,
   1695183700, 1986661051, 2177026350, 2456956037, 2730485921, 2820302411,
   3259730800, 3345764771, 3516065817, 3600352804, 4094571909, 275423344,
   430227734, 506948616, 659060556, 883997877, 958139571, 1322822218,
   1537002063, 1747873779, 1955562222, 2024104815, 2227730452, 2361852424,
   2428436474, 2756734187, 3204031479, 3329325298]

def sha256H0 : List Nat :=
  [1779033703, 3144134277, 1013904242, 2773480762, 1359893119, 2600822924,
   528734635, 1541459225]

/-- Big-endian byte expansion of a value into `numBytes` bytes. -/
def beBytes (numBytes : Nat) (v : Nat) : List Nat :=
  (List.range numBytes).map (fun i => (v >>> (8 * (numBytes - 1 - i))) % 256)

/-- SHA-256 padding: append `0x80`, zeros to 56 mod 64, then the bit length
as an 8-byte big-endian integer. -/
def sha256pad (msg : List Nat) : List Nat :=
  let L := msg.length
  let r := (L + 1) % 64
  let z := (56 + 64 - r) % 64
  msg ++ [128] ++ List.replicate z 0 ++ beBytes 8 ((8 * L) % (2 ^ 64))

def toBlocks (bs : List Nat) : List (List Nat) :=
  (List.range (bs.length / 64)).map (fun i => (bs.drop (64 * i)).take 64)

def word32At (block : List Nat) (j : Nat) : Nat :=
  block.getD (4 * j) 0 * 16777216 + block.getD (4 * j + 1) 0 * 65536 +
    block.getD (4 * j + 2) 0 * 256 + block.getD (4 * j + 3) 0

def smallSigma0 (x : Nat) : Nat := rotr32 x 7 ^^^ rotr32 x 18 ^^^ shr32 x 3

def smallSigma1 (x : Nat) : Nat := rotr32 x 17 ^^^ rotr32 x 19 ^^^ shr32 x 10

def bigSigma0 (x : Nat) : Nat := rotr32 x 2 ^^^ rotr32 x 13 ^^^ rotr32 x 22

def bigSigma1 (x : Nat) : Nat := rotr32 x 6 ^^^ rotr32 x 11 ^^^ rotr32 x 25

def chFn (e f g : Nat) : Nat := (e &&& f) ^^^ (not32 e &&& g)

def majFn (a b c : Nat) : Nat := (a &&& b) ^^^ (a &&& c) ^^^ (b &&& c)

/-- Message schedule: the 16 block words extended to 64 words. -/
def sha256schedule (block : List Nat) : List Nat :=
  let w0 := (List.range 16).map (word32At block)
  (List.range 48).foldl
    (fun w _ =>
      let k := w.length
      let x := add32 (add32 (w.getD (k - 16) 0) (smallSigma0 (w.getD (k - 15) 0)))
                     (add32 (w.getD (k - 7) 0) (smallSigma1 (w.getD (k - 2) 0)))
      w ++ [x]) w0

/-- One SHA-256 compression round applied to the eight working registers. -/
def sha256round (ks ws : List Nat) (st : List Nat) (i : Nat) : List Nat :=
  match st with
  | [a, b, c, d, e, f, g, hh] =>
    let t1 := add32 hh (add32 (bigSigma1 e) (add32 (chFn e f g) (add32 (ks.getD i 0) (ws.getD i 0))))
    let t2 := add32 (bigSigma0 a) (majFn a b c)
    [add32 t1 t2, a, b, c, add32 d t1, e, f, g]
  | other => other

def sha256compress (h : List Nat) (block : List Nat) : List Nat :=
  let ws := sha256schedule block
  let final := (List.range 64).foldl (sha256round sha256K ws) h
  List.zipWith add32 h final

def sha256words (msg : List Nat) : List Nat :=
  (toBlocks (sha256pad msg)).foldl sha256compress sha256H0

def hexChar (n : Nat) : Char :=
  if n < 10 then Char.ofNat (48 + n) else Char.ofNat (87 + n)

def hex8 (v : Nat) : List Char :=
  (List.range 8).map (fun i => hexChar ((v >>> (4 * (7 - i))) % 16))

/-- Lower-case hex SHA-256 digest of a byte list (Python
`hashlib.sha256(msg).hexdigest()`). -/
def sha256hex (msg : List Nat) : String :=
  String.mk ((sha256words msg).map hex8).flatten

/-! ## `app/infrastructure/checksum.py` — `StreamingSHA256`

The `hashlib` hasher object is modelled by the byte list absorbed so far;
its `hexdigest()` is `sha256hex` of those bytes. -/

structure StreamingSHA256 where
  absorbed : List Nat
  size_bytes : Nat
deriving Repr, DecidableEq

def StreamingSHA256.init : StreamingSHA256 := ⟨[], 0⟩

/-- `StreamingSHA256.update`: a falsy (empty) chunk is ignored; otherwise it
is fed to the hasher and counted. -/
def StreamingSHA256.update (h : StreamingSHA256) (chunk : List Nat) : StreamingSHA256 :=
  if chunk.isEmpty then h
  else { absorbed := h.absorbed ++ chunk, size_bytes := h.size_bytes + chunk.length }

def StreamingSHA256.hexdigest (h : StreamingSHA256) : String :=
  sha256hex h.absorbed

/-- Feeding a whole chunk sequence, as `hash_stream` does. -/
def feedChunks (h : StreamingSHA256) (chunks : List (List Nat)) : StreamingSHA256 :=
  chunks.foldl StreamingSHA256.update h

lemma feedChunks_absorbed (h : StreamingSHA256) (chunks : List (List Nat)) :
    (feedChunks h chunks).absorbed = h.absorbed ++ chunks.flatten ∧
    (feedChunks h chunks).size_bytes = h.size_bytes + chunks.flatten.length := by
  induction chunks generalizing h with
  | nil => simp [feedChunks]
  | cons c rest ih =>
    rcases ih (h.update c) with ⟨ha, hs⟩
    by_cases hc : c.isEmpty
    · have hce : c = [] := by simpa [List.isEmpty_iff] using hc
      subst hce
      simp [feedChunks, StreamingSHA256.update] at ha hs ⊢
      exact ⟨ha, hs⟩
    · simp only [feedChunks, List.foldl_cons] at ha hs ⊢
      rw [List.flatten_cons]
      constructor
      · rw [ha]
        simp [StreamingSHA256.update, hc]
      · rw [hs]
        simp [StreamingSHA256.update, hc]
        omega

/-! ## String helpers

Python string primitives (`str.strip`, `str.lower`, `str.split`,
`str.partition`, prefix tests) re-implemented over character lists by
structural recursion, so every definition evaluates inside the kernel. -/

/-- Python `str.strip()`: remove surrounding whitespace. -/
def pyStrip (s : String) : String :=
  String.mk (((s.toList.dropWhile Char.isWhitespace).reverse.dropWhile
    Char.isWhitespace).reverse)

/-- Python `str.lower()` for the ASCII range used by the service. -/
def pyLower (s : String) : String :=
  String.mk (s.toList.map Char.toLower)

/-- Split a character list on a separator character; always returns at least
one (possibly empty) segment, like Python `str.split(sep)`. -/
def splitOnChar (sep : Char) : List Char → List (List Char)
  | [] => [[]]
  | c :: rest =>
    match splitOnChar sep rest with
    | [] => [[]]
    | seg :: segs => if c = sep then [] :: seg :: segs else (c :: seg) :: segs

/-- Join character-list segments with a separator character. -/
def joinWithChar (sep : Char) : List (List Char) → List Char
  | [] => []
  | [x] => x
  | x :: xs => x ++ sep :: joinWithChar sep xs

/-- Prefix test (`str.startswith`). -/
def strStartsWith (s pre : String) : Bool :=
  s.toList.take pre.toList.length == pre.toList

/-! ## `app/infrastructure/storage/local_fs.py` — `LocalFileSystemStorage`

The filesystem is modelled by two association lists: temp objects keyed by
upload id (files under `tmp/<id>.part`) and permanent objects keyed by the
storage key (files under `objects/<key>`).  Filesystem paths are lists of
path segments. -/

def lookupA {α : Type} (l : List (String × α)) (k : String) : Option α :=
  (l.find? (fun p => p.1 == k)).map Prod.snd

def setA {α : Type} (l : List (String × α)) (k : String) (v : α) : List (String × α) :=
  if (l.find? (fun p => p.1 == k)).isSome then
    l.map (fun p => if p.1 == k then (k, v) else p)
  else l ++ [(k, v)]

def removeA {α : Type} (l : List (String × α)) (k : String) : List (String × α) :=
  l.filter (fun p => p.1 != k)

/-- `pathlib.Path(key).parts` for a POSIX relative path: split on slashes,
dropping empty segments and sole-dot segments (parent segments are kept). -/
def pathParts (key : String) : List String :=
  (((splitOnChar '/' key.toList).map String.mk).filter
    (fun s => !(s == "") && !(s == ".")))

/-- `Path(key).is_absolute()` on POSIX. -/
def keyIsAbsolute (key : String) : Bool :=
  match key.toList with
  | [] => false
  | c :: _ => c = '/'

/-- `LocalFileSystemStorage._object_path`: reject an absolute key or one with
a parent-directory segment, else resolve under the object root.  The object
root is the segment list of `root / "objects"`. -/
def objectPath (objectRoot : List String) (key : String) : Except String (List String) :=
  if keyIsAbsolute key || (pathParts key).contains ".." then .error "Invalid storage key"
  else .ok (objectRoot ++ pathParts key)

/-- Key validity as a plain Bool (the guard of `_object_path`). -/
def objectKeyOk (key : String) : Bool :=
  !(keyIsAbsolute key || (pathParts key).contains "..")

structure LocalStorage where
  temps : List (String × List Nat)
  objects : List (String × List Nat)
deriving Repr, DecidableEq

/-- `append_upload_chunk`: `path.open("ab")` creates the temp file when it
is missing, then appends. -/
def LocalStorage.appendUploadChunk (st : LocalStorage) (upload_id : String)
    (chunk : List Nat) : LocalStorage :=
  match lookupA st.temps upload_id with
  | none => { st with temps := st.temps ++ [(upload_id, chunk)] }
  | some bytes => { st with temps := setA st.temps upload_id (bytes ++ chunk) }

/-- `get_upload_size`: the temp object's length, `0` if absent. -/
def LocalStorage.getUploadSize (st : LocalStorage) (upload_id : String) : Nat :=
  match lookupA st.temps upload_id with
  | none => 0
  | some bytes => bytes.length

/-- `abort_upload`: `unlink(missing_ok=True)`. -/
def LocalStorage.abortUpload (st : LocalStorage) (upload_id : String) : LocalStorage :=
  { st with temps := removeA st.temps upload_id }

/-- `init_upload`: truncating create of the temp object. -/
def LocalStorage.initUpload (st : LocalStorage) (upload_id : String) : LocalStorage :=
  { st with temps := setA st.temps upload_id [] }

/-- `promote_upload`: validates the destination key, requires the temp
object, then either discards the temp (key already present, returns
`false`) or moves it to the permanent namespace (returns `true`). -/
def LocalStorage.promoteUpload (st : LocalStorage) (upload_id storage_key : String) :
    Except String (Bool × LocalStorage) :=
  if !objectKeyOk storage_key then .error "Invalid storage key"
  else
    match lookupA st.temps upload_id with
    | none => .error "Upload temp file not found"
    | some bytes =>
      if (lookupA st.objects storage_key).isSome then
        .ok (false, { st with temps := removeA st.temps upload_id })
      else
        .ok (true, { st with temps := removeA st.temps upload_id,
                             objects := setA st.objects storage_key bytes })

/-- `get_object_size`: key validation happens in `_object_path` before any
filesystem access; a missing object is a `stat` failure. -/
def LocalStorage.getObjectSize (st : LocalStorage) (storage_key : String) :
    Except String Nat :=
  if !objectKeyOk storage_key then .error "Invalid storage key"
  else
    match lookupA st.objects storage_key with
    | none => .error "No such file"
    | some bytes => .ok bytes.length

/-- `stream_object` reads the object's bytes (the full read; range logic is
unchanged byte slicing).  Key validation happens first. -/
def LocalStorage.readObject (st : LocalStorage) (storage_key : String) :
    Except String (List Nat) :=
  if !objectKeyOk storage_key then .error "Invalid storage key"
  else
    match lookupA st.objects storage_key with
    | none => .error "No such file"
    | some bytes => .ok bytes

/-- `delete_object`: key validation first, then `unlink(missing_ok=True)`. -/
def LocalStorage.deleteObject (st : LocalStorage) (storage_key : String) :
    Except String LocalStorage :=
  if !objectKeyOk storage_key then .error "Invalid storage key"
  else .ok { st with objects := removeA st.objects storage_key }

/-! ## Data model (`app/models/*.py`) -/

structure FileBlob where
  id : Nat
  checksum_sha256 : String
  size_bytes : Nat
  storage_key : String
  reference_count : Nat
deriving Repr, DecidableEq

structure FileVersion where
  id : Nat
  package_id : Nat
  blob_id : Nat
  file_name : String
  content_type : Option String
  version : String
  size_bytes : Nat
  checksum_sha256 : String
  download_count : Nat
deriving Repr, DecidableEq

structure SoftwarePackage where
  id : Nat
  owner_id : Int
  name : String
  description : String
  category : String
  language : String
  is_public : Bool
  latest_version : Option String
deriving Repr, DecidableEq

inductive UploadStatus
  | PENDING
  | UPLOADING
  | FINALIZING
  | COMPLETED
  | FAILED
deriving Repr, DecidableEq

structure UploadSession where
  id : String
  user_id : Int
  package_name : String
  package_description : String
  package_category : String
  package_language : String
  package_version : String
  is_public : Bool
  file_name : String
  content_type : Option String
  bytes_received : Nat
  max_size_bytes : Int
  status : UploadStatus
  error_message : Option String
  completed_file_version_id : Option Nat
deriving Repr, DecidableEq

/-- The whole persistent state: database tables plus the storage backend.
The `next_*` counters model the autoincrement primary keys. -/
structure SysState where
  blobs : List FileBlob
  versions : List FileVersion
  packages : List SoftwarePackage
  sessions : List UploadSession
  storage : LocalStorage
  next_blob_id : Nat
  next_version_id : Nat
  next_package_id : Nat
deriving Repr, DecidableEq

/-! ## Repository (`app/repositories/software_package.py`) -/

def getUploadSessionForUser (st : SysState) (upload_id : String) (user_id : Int) :
    Option UploadSession :=
  st.sessions.find? (fun s => s.id == upload_id && s.user_id == user_id)

/-- Persisting mutations of a fetched session row (SQLAlchemy unit of work
writes the changed attributes back on commit). -/
def updateSession (st : SysState) (s : UploadSession) : SysState :=
  { st with sessions := st.sessions.map (fun t => if t.id == s.id then s else t) }

def getBlobByChecksumAndSize (st : SysState) (c : String) (n : Nat) : Option FileBlob :=
  st.blobs.find? (fun b => b.checksum_sha256 == c && b.size_bytes == n)

def getBlobById (st : SysState) (blob_id : Nat) : Option FileBlob :=
  st.blobs.find? (fun b => b.id == blob_id)

def updateBlob (st : SysState) (b : FileBlob) : SysState :=
  { st with blobs := st.blobs.map (fun t => if t.id == b.id then b else t) }

/-- `increment_blob_refcount`. -/
def incrementBlobRefcount (b : FileBlob) : FileBlob :=
  { b with reference_count := b.reference_count + 1 }

/-- `decrement_blob_refcount`: `max(0, rc - 1)`, which is `Nat` subtraction. -/
def decrementBlobRefcount (b : FileBlob) : FileBlob :=
  { b with reference_count := b.reference_count - 1 }

/-- `add_blob`: the model default of `reference_count` is `1`. -/
def addBlob (st : SysState) (c : String) (n : Nat) (storage_key : String) :
    FileBlob × SysState :=
  let b : FileBlob := ⟨st.next_blob_id, c, n, storage_key, 1⟩
  (b, { st with blobs := st.blobs ++ [b], next_blob_id := st.next_blob_id + 1 })

def getPackageById (st : SysState) (package_id : Nat) : Option SoftwarePackage :=
  st.packages.find? (fun p => p.id == package_id)

def getPackageByOwnerAndName (st : SysState) (owner_id : Int) (name : String) :
    Option SoftwarePackage :=
  st.packages.find? (fun p => p.owner_id == owner_id && p.name == name)

def updatePackage (st : SysState) (p : SoftwarePackage) : SysState :=
  { st with packages := st.packages.map (fun t => if t.id == p.id then p else t) }

/-- `upsert_package`: update the row found by `(owner, name)` or create one. -/
def upsertPackage (st : SysState) (owner_id : Int)
    (name description category language : String) (is_public : Bool)
    (latest_version : String) : SoftwarePackage × SysState :=
  match getPackageByOwnerAndName st owner_id name with
  | some p =>
    let p2 := { p with description := description, category := category,
                       language := language, is_public := is_public,
                       latest_version := some latest_version }
    (p2, updatePackage st p2)
  | none =>
    let p : SoftwarePackage :=
      ⟨st.next_package_id, owner_id, name, description, category, language,
       is_public, some latest_version⟩
    (p, { st with packages := st.packages ++ [p],
                  next_package_id := st.next_package_id + 1 })

/-- The `uq_file_versions_package_version` unique constraint: inserting a
row for `(package_id, version)` raises `IntegrityError` when one exists. -/
def fileVersionConflict (st : SysState) (package_id : Nat) (version : String) : Bool :=
  st.versions.any (fun v => v.package_id == package_id && v.version == version)

def addFileVersion (st : SysState) (package_id blob_id : Nat) (file_name : String)
    (content_type : Option String) (version : String) (size_bytes : Nat)
    (checksum : String) : FileVersion × SysState :=
  let v : FileVersion :=
    ⟨st.next_version_id, package_id, blob_id, file_name, content_type, version,
     size_bytes, checksum, 0⟩
  (v, { st with versions := st.versions ++ [v],
                next_version_id := st.next_version_id + 1 })

/-- `get_total_uploaded_bytes_for_user`: sum of version sizes joined to the
packages the user owns. -/
def getTotalUploadedBytesForUser (st : SysState) (user_id : Int) : Nat :=
  ((st.versions.filter (fun v =>
      match getPackageById st v.package_id with
      | some p => p.owner_id == user_id
      | none => false)).map (fun v => v.size_bytes)).sum

def listAllFileVersionsForPackage (st : SysState) (package_id : Nat) : List FileVersion :=
  st.versions.filter (fun v => v.package_id == package_id)

def deleteFileVersionRow (st : SysState) (v : FileVersion) : SysState :=
  { st with versions := st.versions.filter (fun w => w.id != v.id) }

def deleteBlobRow (st : SysState) (b : FileBlob) : SysState :=
  { st with blobs := st.blobs.filter (fun t => t.id != b.id) }

def deletePackageRow (st : SysState) (p : SoftwarePackage) : SysState :=
  { st with packages := st.packages.filter (fun t => t.id != p.id) }

/-! ## Service layer (`app/services/software_package_service.py`)

Error taxonomy of `app/exceptions/exceptions.py`; `storage` stands for
uncaught backend exceptions (e.g. `FileNotFoundError` from
`promote_upload`). -/

inductive ServiceError
  | validation (msg : String)
  | conflict (msg : String)
  | notFound (msg : String)
  | permission (msg : String)
  | storage (msg : String)
deriving Repr, DecidableEq

structure ServiceConfig where
  max_file_size_bytes : Int
  user_quota_bytes : Int
deriving Repr, DecidableEq

def ALLOWED_CATEGORIES : List String :=
  ["networking software", "cracked software", "student projects",
   "desktop applications", "mobile application"]

def ALLOWED_EXTENSIONS : List String :=
  [".zip", ".tar", ".gz", ".rar", ".7z", ".exe", ".msi", ".deb", ".rpm", ".whl"]

/-- `pathlib.Path(file_name).name`: the last path component ('' when there
is none). -/
def pyPathName (file_name : String) : String :=
  match (pathParts file_name).getLast? with
  | some s => s
  | none => ""

/-- Index of the last '.' in a character list, if any. -/
def lastDotIdx (cs : List Char) : Option Nat :=
  ((List.range cs.length).filter (fun i => cs.getD i ' ' == '.')).getLast?

/-- `pathlib.Path(file_name).suffix`: the extension of the final component;
empty when the last dot is at position 0 or at the very end. -/
def pySuffix (file_name : String) : String :=
  let name := pyPathName file_name
  match lastDotIdx name.toList with
  | some i => if 0 < i && i < name.length - 1 then name.drop i else ""
  | none => ""

/-- `SoftwarePackageService._validate_file_name`. -/
def validateFileName (file_name : String) : Except ServiceError Unit :=
  if ALLOWED_EXTENSIONS.contains (pyLower (pySuffix file_name)) then .ok ()
  else .error (.validation "Unsupported package file format")

/-- `SoftwarePackageDraft.validate` on the draft built by
`init_upload_session` (every textual field was stripped at construction;
`category` was also lower-cased). -/
def softwarePackageDraftValidate (owner_id : Int)
    (name description category language version file_name : String) :
    Except ServiceError Unit :=
  if owner_id ≤ 0 then .error (.validation "Invalid package owner")
  else if pyStrip name = "" then .error (.validation "Package name is required")
  else if pyStrip description = "" then .error (.validation "Package description is required")
  else if pyStrip category = "" then .error (.validation "Package category is required")
  else if pyStrip language = "" then .error (.validation "Project language is required")
  else if pyStrip version = "" then .error (.validation "Package version is required")
  else if pyStrip file_name = "" then .error (.validation "Uploaded file name is required")
  else .ok ()

/-- `FileVersionDraft.validate`. -/
def fileVersionDraftValidate (version checksum : String) (size_bytes : Nat) :
    Except ServiceError Unit :=
  if pyStrip version = "" then .error (.validation "Package version is required")
  else if checksum.length ≠ 64 then .error (.validation "SHA-256 checksum is required")
  else if size_bytes = 0 then .error (.validation "Package file is empty")
  else .ok ()

/-- `SoftwarePackageService._build_storage_key`. -/
def buildStorageKey (checksum : String) : String :=
  "blobs/" ++ checksum.take 2 ++ "/" ++ checksum

/-- Modelled from the spec: `NoOpMalwareScanner.scan_stream` (module
`app/infrastructure/security/malware_scanner.py` is not among the provided
sources).  The spec says the scanner must either return normally (clean) or
fail, and that a no-op implementation is the acceptable default used when no
scanner is injected, so the default scan accepts every stream. -/
def noOpScanStream (_stream : List Nat) (_filename : String)
    (_content_type : Option String) : Except ServiceError Unit :=
  .ok ()

structure UploadInitResult where
  upload_id : String
  offset : Nat
  max_size_bytes : Int
deriving Repr, DecidableEq

structure UploadAppendResult where
  upload_id : String
  offset : Nat
  status : UploadStatus
deriving Repr, DecidableEq

/-- Python `max_size_bytes or self.max_file_size_bytes`: `None` and `0` are
falsy and fall back to the server maximum. -/
def effectiveMaxSize (cfg : ServiceConfig) (max_size_bytes : Option Int) : Int :=
  match max_size_bytes with
  | none => cfg.max_file_size_bytes
  | some m => if m = 0 then cfg.max_file_size_bytes else m

/-- `SoftwarePackageService.init_upload_session`.  `new_upload_id` stands for
the generated `uuid4().hex`. -/
def initUploadSession (cfg : ServiceConfig) (st : SysState) (user_id : Int)
    (package_name package_description package_category package_language
     package_version : String) (is_public : Bool) (file_name : String)
    (content_type : Option String) (max_size_bytes : Option Int)
    (new_upload_id : String) : Except ServiceError (UploadInitResult × SysState) :=
  let name := pyStrip package_name
  let description := pyStrip package_description
  let category := pyLower (pyStrip package_category)
  let language := pyStrip package_language
  let version := pyStrip package_version
  let fname := pyStrip file_name
  match softwarePackageDraftValidate user_id name description category language
      version fname with
  | .error e => .error e
  | .ok () =>
    if ¬ ALLOWED_CATEGORIES.contains category then
      .error (.validation "Unsupported package category")
    else
      match validateFileName fname with
      | .error e => .error e
      | .ok () =>
        let effective_max := effectiveMaxSize cfg max_size_bytes
        if effective_max ≤ 0 then .error (.validation "Invalid max size")
        else if effective_max > cfg.max_file_size_bytes then
          .error (.validation "Requested max size exceeds server limit")
        else
          let session : UploadSession :=
            { id := new_upload_id, user_id := user_id, package_name := name,
              package_description := description, package_category := category,
              package_language := language, package_version := version,
              is_public := is_public, file_name := fname,
              content_type := content_type, bytes_received := 0,
              max_size_bytes := effective_max, status := .PENDING,
              error_message := none, completed_file_version_id := none }
          .ok (⟨new_upload_id, 0, effective_max⟩,
               { st with sessions := st.sessions ++ [session] })

/-- The `async for chunk in chunk_stream` loop of `append_upload_stream`:
skips falsy chunks, counts the chunk before the size check, aborts with
`ValidationError` when the projected total passes the session maximum, and
otherwise appends the chunk to the temp object.  `.inl` is the loop
finishing, `.inr` the mid-stream validation failure; both carry the storage
as left by the appends already performed. -/
def appendLoop (upload_id : String) (expected_offset : Int) (max_size : Int) :
    LocalStorage → Nat → List (List Nat) → LocalStorage ⊕ LocalStorage
  | storage, _, [] => .inl storage
  | storage, bytes_appended, chunk :: rest =>
    if chunk.isEmpty then appendLoop upload_id expected_offset max_size storage bytes_appended rest
    else
      let ba := bytes_appended + chunk.length
      if expected_offset + (ba : Int) > max_size then .inr storage
      else appendLoop upload_id expected_offset max_size
        (storage.appendUploadChunk upload_id chunk) ba rest

/-- `SoftwarePackageService.append_upload_stream`.  The pair's second
component is the state as left behind, including the commits of the
transactions that completed before an error. -/
def appendUploadStream (st : SysState) (upload_id : String) (user_id : Int)
    (expected_offset : Int) (chunks : List (List Nat)) :
    Except ServiceError UploadAppendResult × SysState :=
  match getUploadSessionForUser st upload_id user_id with
  | none => (.error (.notFound "Upload session not found"), st)
  | some s =>
    if s.status = .COMPLETED ∨ s.status = .FAILED ∨ s.status = .FINALIZING then
      (.error (.conflict "Upload session is not writable"), st)
    else if (s.bytes_received : Int) ≠ expected_offset then
      (.error (.conflict "Upload offset mismatch"), st)
    else
      let st1 := updateSession st { s with status := .UPLOADING }
      let max_size := s.max_size_bytes
      match appendLoop upload_id expected_offset max_size st1.storage 0 chunks with
      | .inr storageF =>
        let current_size := storageF.getUploadSize upload_id
        let stE := { st1 with storage := storageF }
        let stF :=
          match getUploadSessionForUser stE upload_id user_id with
          | some sf =>
            updateSession stE
              { sf with bytes_received := current_size, status := .FAILED,
                        error_message := some "Chunk append failed" }
          | none => stE
        (.error (.validation "Upload exceeds maximum allowed file size"), stF)
      | .inl storageOk =>
        let st2 := { st1 with storage := storageOk }
        let new_offset := storageOk.getUploadSize upload_id
        match getUploadSessionForUser st2 upload_id user_id with
        | none => (.error (.notFound "Upload session not found"), st2)
        | some s2 =>
          let st3 :=
            updateSession st2
              { s2 with bytes_received := new_offset, status := .UPLOADING,
                        error_message := none }
          (.ok ⟨upload_id, new_offset, .UPLOADING⟩, st3)

/-- The final transaction of `_finalize_upload_with_checksum` (package
upsert, `FileVersion` insert, session completion) together with its
`IntegrityError` handler.  On the unique-constraint violation the whole
transaction is rolled back (state `st` kept), the compensating transaction
decrements the blob reference count and fails the session, and the error
surfaces as a conflict. -/
def finalizeCommit (st : SysState) (upload_id : String) (user_id : Int)
    (checksum : String) (size_bytes : Nat) (s : UploadSession) (blob : FileBlob) :
    Except ServiceError Nat × SysState :=
  let up := upsertPackage st user_id s.package_name s.package_description
    s.package_category s.package_language s.is_public s.package_version
  let pkg := up.1
  let st1 := up.2
  if fileVersionConflict st1 pkg.id s.package_version then
    let stC :=
      match getBlobByChecksumAndSize st checksum size_bytes with
      | some dup => if dup.id = blob.id then updateBlob st (decrementBlobRefcount dup) else st
      | none => st
    let stF :=
      match getUploadSessionForUser stC upload_id user_id with
      | some f =>
        updateSession stC
          { f with status := .FAILED,
                   error_message := some "Version already exists for this package" }
      | none => stC
    (.error (.conflict "Package version already exists"), stF)
  else
    let av := addFileVersion st1 pkg.id blob.id s.file_name s.content_type
      s.package_version size_bytes checksum
    let vrow := av.1
    let st2 := av.2
    match getUploadSessionForUser st2 upload_id user_id with
    | none => (.error (.notFound "Upload session not found"), st)
    | some s2 =>
      let st3 :=
        updateSession st2
          { s2 with status := .COMPLETED,
                    completed_file_version_id := some vrow.id,
                    error_message := none }
      (.ok vrow.id, st3)

/-- Deduplication phase of `_finalize_upload_with_checksum`: look the blob up
by `(checksum, size)`; on a hit increment its reference count and discard the
temp upload, otherwise promote the temp object and create (or, after a lost
promotion race, reuse) the blob row. -/
def finalizeBlobPhase (st : SysState) (upload_id : String) (user_id : Int)
    (checksum : String) (size_bytes : Nat) (storage_key : String)
    (s : UploadSession) : Except ServiceError Nat × SysState :=
  match getBlobByChecksumAndSize st checksum size_bytes with
  | some b =>
    let b2 := incrementBlobRefcount b
    let st2 := updateBlob st b2
    let st3 := { st2 with storage := st2.storage.abortUpload upload_id }
    finalizeCommit st3 upload_id user_id checksum size_bytes s b2
  | none =>
    match st.storage.promoteUpload upload_id storage_key with
    | .error e => (.error (.storage e), st)
    | .ok (_, storage2) =>
      let st2 := { st with storage := storage2 }
      match getBlobByChecksumAndSize st2 checksum size_bytes with
      | some b =>
        let b2 := incrementBlobRefcount b
        finalizeCommit (updateBlob st2 b2) upload_id user_id checksum size_bytes s b2
      | none =>
        let ab := addBlob st2 checksum size_bytes storage_key
        finalizeCommit ab.2 upload_id user_id checksum size_bytes s ab.1

/-- `_finalize_upload_with_checksum` after its first transaction: size
validations, `FileVersionDraft.validate`, malware scan, quota check, then
the blob and commit phases.  `s` is the session row as read in the first
transaction. -/
def finalizePhase2 (cfg : ServiceConfig) (st : SysState) (upload_id : String)
    (user_id : Int) (checksum : String) (size_bytes : Nat) (s : UploadSession) :
    Except ServiceError Nat × SysState :=
  if size_bytes = 0 then (.error (.validation "Upload contains no data"), st)
  else if (size_bytes : Int) > s.max_size_bytes then
    (.error (.validation "Upload exceeds maximum allowed file size"), st)
  else
    match fileVersionDraftValidate s.package_version checksum size_bytes with
    | .error e => (.error e, st)
    | .ok () =>
      match noOpScanStream ((lookupA st.storage.temps upload_id).getD [])
          s.file_name s.content_type with
      | .error e => (.error e, st)
      | .ok () =>
        let storage_key := buildStorageKey checksum
        let usage := getTotalUploadedBytesForUser st user_id
        if (usage : Int) + (size_bytes : Int) > cfg.user_quota_bytes then
          (.error (.validation "Storage quota exceeded"), st)
        else
          finalizeBlobPhase st upload_id user_id checksum size_bytes storage_key s

/-- `SoftwarePackageService._finalize_upload_with_checksum`.  The first
transaction handles idempotent replay (`COMPLETED`), refuses `FAILED` and
`FINALIZING`, rejects an empty upload (rolling the `FINALIZING` write back),
and otherwise commits the `FINALIZING` status. -/
def finalizeUploadWithChecksum (cfg : ServiceConfig) (st : SysState)
    (upload_id : String) (user_id : Int) (checksum : String) (size_bytes : Nat) :
    Except ServiceError Nat × SysState :=
  match getUploadSessionForUser st upload_id user_id with
  | none => (.error (.notFound "Upload session not found"), st)
  | some s =>
    match s.status with
    | .COMPLETED =>
      match s.completed_file_version_id with
      | none => (.error (.conflict "Upload already completed with missing version reference"), st)
      | some vid => (.ok vid, st)
    | .FAILED => (.error (.conflict "Upload session failed and cannot be completed"), st)
    | .FINALIZING => (.error (.conflict "Upload session is already finalizing"), st)
    | _ =>
      if s.bytes_received = 0 then (.error (.validation "Upload contains no data"), st)
      else
        let st1 := updateSession st { s with status := .FINALIZING }
        finalizePhase2 cfg st1 upload_id user_id checksum size_bytes s

/-- The per-version loop of `delete_package_for_owner`: delete each
`FileVersion`, decrement its blob's reference count, and when the count
reaches zero delete the blob row and remember its storage key for the
post-commit physical delete. -/
def deleteVersionsLoop : SysState → List FileVersion → List String → SysState × List String
  | st, [], keys => (st, keys)
  | st, v :: rest, keys =>
    let blob := getBlobById st v.blob_id
    let st1 := deleteFileVersionRow st v
    match blob with
    | none => deleteVersionsLoop st1 rest keys
    | some b =>
      let b2 := decrementBlobRefcount b
      if b2.reference_count = 0 then
        deleteVersionsLoop (deleteBlobRow (updateBlob st1 b2) b2) rest
          (keys ++ [b2.storage_key])
      else
        deleteVersionsLoop (updateBlob st1 b2) rest keys

/-- The post-commit physical deletes: failures are logged and swallowed. -/
def deleteObjectsBestEffort : LocalStorage → List String → LocalStorage
  | storage, [] => storage
  | storage, k :: ks =>
    match storage.deleteObject k with
    | .ok storage2 => deleteObjectsBestEffort storage2 ks
    | .error _ => deleteObjectsBestEffort storage ks

/-- `SoftwarePackageService.delete_package_for_owner`. -/
def deletePackageForOwner (st : SysState) (package_id : Nat) (user_id : Int) :
    Except ServiceError Unit × SysState :=
  match getPackageById st package_id with
  | none => (.error (.notFound "Package not found"), st)
  | some pkg =>
    if pkg.owner_id ≠ user_id then
      (.error (.permission "Only the package owner can delete this package"), st)
    else
      let versions := listAllFileVersionsForPackage st package_id
      let dl := deleteVersionsLoop st versions []
      let st2 := deletePackageRow dl.1 pkg
      let st3 := { st2 with storage := deleteObjectsBestEffort st2.storage dl.2 }
      (.ok (), st3)

/-! ## `app/api/v1/software_packages.py` — `_parse_range` -/

/-- Digit run of a Python integer literal: decimal digits with single
underscores allowed between digits. -/
def pyDigitsCore : Nat → List Char → Option Nat
  | acc, [] => some acc
  | acc, c :: rest =>
    if c.isDigit then pyDigitsCore (acc * 10 + (c.toNat - 48)) rest
    else if c = '_' then
      match rest with
      | d :: _ => if d.isDigit then pyDigitsCore acc rest else none
      | [] => none
    else none

def pyIntDigits (cs : List Char) : Option Nat :=
  match cs with
  | [] => none
  | c :: _ => if c.isDigit then pyDigitsCore 0 cs else none

/-- Python `int(s)`: surrounding whitespace stripped, an optional sign, then
a digit run; anything else raises `ValueError` (here `none`). -/
def pyInt (s : String) : Option Int :=
  match (pyStrip s).toList with
  | [] => none
  | c :: rest =>
    if c = '+' then (pyIntDigits rest).map (fun n => (n : Int))
    else if c = '-' then (pyIntDigits rest).map (fun n => -(n : Int))
    else (pyIntDigits (c :: rest)).map (fun n => (n : Int))

/-- Python `raw.partition("-")`: the part before the first dash and the part
after it; `none` when there is no dash (`sep != "-"`). -/
def partitionDash (s : String) : Option (String × String) :=
  match splitOnChar '-' s.toList with
  | [] => none
  | [_] => none
  | a :: rest => some (String.mk a, String.mk (joinWithChar '-' rest))

/-- The final bounds check and clamp of `_parse_range`. -/
def rangeBoundsCheck (start e total_size : Int) : Except String (Int × Int) :=
  if start < 0 ∨ e < start ∨ start ≥ total_size then
    .error "Requested range is not satisfiable"
  else .ok (start, min e (total_size - 1))

/-- The try-block of `_parse_range`: turn the two partitioned pieces into a
candidate `(start, end)` pair; any `ValueError` inside, including the
non-positive-suffix check, surfaces as the generic invalid-header error. -/
def rangeFromParts (start_s end_s : String) (total_size : Int) :
    Except String (Int × Int) :=
  if start_s ≠ "" then
    match pyInt start_s with
    | none => .error "Invalid Range header"
    | some start =>
      if end_s ≠ "" then
        match pyInt end_s with
        | none => .error "Invalid Range header"
        | some e => .ok (start, e)
      else .ok (start, total_size - 1)
  else
    match pyInt end_s with
    | none => .error "Invalid Range header"
    | some tail =>
      if tail ≤ 0 then .error "Invalid Range header"
      else .ok (max 0 (total_size - tail), total_size - 1)

/-- `_parse_range`: `none` header (or the falsy empty string) means a full
response; a header must be a single `bytes=` range; the result is the
clamped inclusive byte range. -/
def parseRange (range_header : Option String) (total_size : Int) :
    Except String (Option (Int × Int)) :=
  match range_header with
  | none => .ok none
  | some h =>
    if h = "" then .ok none
    else if ¬ strStartsWith h "bytes=" then .error "Invalid Range header"
    else
      let raw := pyStrip (h.drop 6)
      if raw.toList.contains ',' then .error "Multiple byte ranges are not supported"
      else
        match partitionDash raw with
        | none => .error "Invalid Range header"
        | some (start_s, end_s) =>
          if start_s = "" ∧ end_s = "" then .error "Invalid Range header"
          else
            match rangeFromParts start_s end_s total_size with
            | .error e => .error e
            | .ok (start, e) =>
              match rangeBoundsCheck start e total_size with
              | .error e2 => .error e2
              | .ok r => .ok (some r)

/-! ## Structural lemmas -/

lemma feedChunks_filter (h : StreamingSHA256) (chunks : List (List Nat)) :
    feedChunks h (chunks.filter (fun c => !c.isEmpty)) = feedChunks h chunks := by
  induction chunks generalizing h with
  | nil => rfl
  | cons c rest ih =>
    by_cases hc : c.isEmpty
    · have hce : c = [] := by simpa [List.isEmpty_iff] using hc
      subst hce
      simpa [feedChunks, StreamingSHA256.update] using ih h
    · simp only [List.filter_cons, hc, Bool.not_false, if_pos, feedChunks,
        List.foldl_cons]
      exact ih (h.update c)

lemma appendLoop_filter (A : String) (off max : Int) (storage : LocalStorage)
    (ba : Nat) (chunks : List (List Nat)) :
    appendLoop A off max storage ba (chunks.filter (fun c => !c.isEmpty)) =
      appendLoop A off max storage ba chunks := by
  induction chunks generalizing storage ba with
  | nil => rfl
  | cons c rest ih =>
    by_cases hc : c.isEmpty
    · simp only [List.filter_cons, hc, Bool.not_true, appendLoop, if_pos]
      exact ih storage ba
    · simp only [List.filter_cons, hc, Bool.not_false, appendLoop, if_neg,
        Bool.false_eq_true, not_false_iff]
      split
      · rfl
      · exact ih _ _

/-- Sum of the chunk lengths of a stream. -/
def sumLens (chunks : List (List Nat)) : Nat :=
  (chunks.map List.length).sum

/-- If the append loop finishes without the mid-stream size failure, either
the stream carried no bytes at all or the full projected size fit. -/
lemma appendLoop_inl_le (A : String) (off max : Int) :
    ∀ (chunks : List (List Nat)) (storage : LocalStorage) (ba : Nat)
      (storageOut : LocalStorage),
      appendLoop A off max storage ba chunks = .inl storageOut →
      sumLens chunks = 0 ∨ off + ((ba : Int) + (sumLens chunks : Int)) ≤ max := by
  intro chunks
  induction chunks with
  | nil => intro storage ba storageOut _; left; rfl
  | cons c rest ih =>
    intro storage ba storageOut h
    by_cases hc : c.isEmpty
    · have hce : c = [] := by simpa [List.isEmpty_iff] using hc
      subst hce
      simp only [appendLoop, List.isEmpty_nil, if_pos] at h
      rcases ih storage ba storageOut h with h0 | hle
      · left; simpa [sumLens] using h0
      · right; simpa [sumLens] using hle
    · simp only [appendLoop, hc, Bool.false_eq_true, if_neg, not_false_iff] at h
      by_cases hover : off + ((ba + c.length : Nat) : Int) > max
      · rw [if_pos hover] at h
        exact absurd h (by simp)
      · rw [if_neg hover] at h
        rcases ih _ _ _ h with h0 | hle
        · right
          have hc0 : sumLens (c :: rest) = c.length := by
            simp [sumLens] at h0 ⊢
            omega
          rw [hc0]
          push_neg at hover
          exact_mod_cast hover
        · right
          have : sumLens (c :: rest) = c.length + sumLens rest := by
            simp [sumLens]
          rw [this]
          push_cast at hle ⊢
          omega

lemma find?_map_update (A : String) (u : Int) (s t : UploadSession)
    (hid : t.id = s.id) (huser : t.user_id = s.user_id) :
    ∀ l : List UploadSession,
      l.find? (fun x => x.id == A && x.user_id == u) = some s →
      (l.map (fun x => if x.id == t.id then t else x)).find?
          (fun x => x.id == A && x.user_id == u) = some t := by
  intro l
  induction l with
  | nil => intro h; simp at h
  | cons x xs ih =>
    intro hfind
    by_cases px : (x.id == A && x.user_id == u) = true
    · have hx : x = s := by
        simp only [List.find?_cons, px, cond_true] at hfind
        exact Option.some.inj hfind
      subst hx
      have hsid : x.id = A := by
        have := px
        simp only [Bool.and_eq_true, beq_iff_eq] at this
        exact this.1
      have hsu : x.user_id = u := by
        have := px
        simp only [Bool.and_eq_true, beq_iff_eq] at this
        exact this.2
      have hxid : (x.id == t.id) = true := by simp [hid]
      have pt : (t.id == A && t.user_id == u) = true := by
        simp only [Bool.and_eq_true, beq_iff_eq]
        exact ⟨by rw [hid, hsid], by rw [huser, hsu]⟩
      simp only [List.map_cons, if_pos hxid, List.find?_cons, pt, cond_true]
    · simp only [List.find?_cons, px, cond_false] at hfind
      have hsid : s.id = A := by
        have := List.find?_some hfind
        simp only [Bool.and_eq_true, beq_iff_eq] at this
        exact this.1
      have hsu : s.user_id = u := by
        have := List.find?_some hfind
        simp only [Bool.and_eq_true, beq_iff_eq] at this
        exact this.2
      by_cases hxid : (x.id == t.id) = true
      · have pt : (t.id == A && t.user_id == u) = true := by
          simp only [Bool.and_eq_true, beq_iff_eq]
          exact ⟨by rw [hid, hsid], by rw [huser, hsu]⟩
        simp only [List.map_cons, if_pos hxid, List.find?_cons, pt, cond_true]
      · have px2 : (x.id == A && x.user_id == u) = false := by
          simpa using px
        rw [List.map_cons, if_neg hxid]
        simp only [List.find?_cons, px2, cond_false]
        exact ih hfind

/-- A session looked up by `(upload id, user)` and then written back with the
same id and user is what the next lookup returns. -/
lemma getUploadSessionForUser_update (st : SysState) (A : String) (u : Int)
    (s t : UploadSession) (hfind : getUploadSessionForUser st A u = some s)
    (hid : t.id = s.id) (huser : t.user_id = s.user_id) :
    getUploadSessionForUser (updateSession st t) A u = some t := by
  unfold getUploadSessionForUser updateSession at *
  exact find?_map_update A u s t hid huser st.sessions hfind

/-! ## Claim theorems -/

/-- C2: feeding any chunk sequence through `StreamingSHA256.update` and then
reading `hexdigest` gives exactly the SHA-256 digest of the concatenation of
the chunks, and `size_bytes` is the concatenation's length — independent of
the chunk boundaries. -/
theorem checksum_chunking_invariance (chunks : List (List Nat)) :
    (feedChunks StreamingSHA256.init chunks).hexdigest = sha256hex chunks.flatten ∧
    (feedChunks StreamingSHA256.init chunks).size_bytes = chunks.flatten.length := by
  have h := feedChunks_absorbed StreamingSHA256.init chunks
  constructor
  · rw [StreamingSHA256.hexdigest, h.1]
    simp [StreamingSHA256.init]
  · rw [h.2]
    simp [StreamingSHA256.init]

/-- C10: empty chunks are ignored at every stage: feeding a chunk stream to
the checksum accumulator, or appending it to an upload session, gives exactly
the same result as feeding the stream with the empty chunks removed — same
digest, same byte count, same stored bytes, same final session state. -/
theorem empty_chunks_ignored :
    (∀ (h : StreamingSHA256) (chunks : List (List Nat)),
       feedChunks h (chunks.filter (fun c => !c.isEmpty)) = feedChunks h chunks) ∧
    (∀ (st : SysState) (upload_id : String) (user_id expected_offset : Int)
       (chunks : List (List Nat)),
       appendUploadStream st upload_id user_id expected_offset
           (chunks.filter (fun c => !c.isEmpty)) =
         appendUploadStream st upload_id user_id expected_offset chunks) := by
  constructor
  · exact feedChunks_filter
  · intro st upload_id user_id expected_offset chunks
    unfold appendUploadStream
    simp only [appendLoop_filter]

/-- C8: every permanent-namespace operation of the local filesystem backend
(`promote_upload`, `stream_object`, `get_object_size`, `delete_object`)
rejects a storage key that is absolute or contains a parent-directory
segment before resolving any path, and every key `_object_path` does accept
resolves to the object root extended by the key's own segments — hence lies
under the object root. -/
theorem storage_key_path_safety (objectRoot : List String)
    (key upload_id : String) (st : LocalStorage) :
    ((keyIsAbsolute key = true ∨ (pathParts key).contains ".." = true) →
      objectPath objectRoot key = .error "Invalid storage key" ∧
      st.promoteUpload upload_id key = .error "Invalid storage key" ∧
      st.readObject key = .error "Invalid storage key" ∧
      st.getObjectSize key = .error "Invalid storage key" ∧
      st.deleteObject key = .error "Invalid storage key") ∧
    (∀ p, objectPath objectRoot key = .ok p →
      p = objectRoot ++ pathParts key ∧ (pathParts key).contains ".." = false ∧
      keyIsAbsolute key = false) := by
  constructor
  · intro hbad
    have hguard : (keyIsAbsolute key || (pathParts key).contains "..") = true := by
      rcases hbad with h | h
      · rw [h]
        simp
      · rw [h]
        simp
    have hok : (!objectKeyOk key) = true := by
      unfold objectKeyOk
      rw [hguard]
      rfl
    refine ⟨?_, ?_, ?_, ?_, ?_⟩
    · unfold objectPath
      rw [if_pos hguard]
    · unfold LocalStorage.promoteUpload
      rw [if_pos hok]
    · unfold LocalStorage.readObject
      rw [if_pos hok]
    · unfold LocalStorage.getObjectSize
      rw [if_pos hok]
    · unfold LocalStorage.deleteObject
      rw [if_pos hok]
  · intro p hp
    unfold objectPath at hp
    by_cases hguard : (keyIsAbsolute key || (pathParts key).contains "..") = true
    · rw [if_pos hguard] at hp
      cases hp
    · rw [if_neg hguard] at hp
      have hparts := Except.ok.inj hp
      have hg := hguard
      simp only [Bool.or_eq_true, not_or, Bool.not_eq_true] at hg
      exact ⟨hparts.symm, hg.2, hg.1⟩

/-- Witness for C8 at concrete keys: the traversal key `../secret` and the
absolute key `/etc/passwd` are rejected by every operation, and the genuine
content key resolves under the object root. -/
theorem storage_key_path_safety_witness :
    (objectPath ["srv", "objects"] "../secret" = .error "Invalid storage key" ∧
     LocalStorage.promoteUpload ⟨[], []⟩ "u1" "../secret" = .error "Invalid storage key" ∧
     LocalStorage.readObject ⟨[], []⟩ "../secret" = .error "Invalid storage key" ∧
     LocalStorage.getObjectSize ⟨[], []⟩ "../secret" = .error "Invalid storage key" ∧
     LocalStorage.deleteObject ⟨[], []⟩ "../secret" = .error "Invalid storage key") ∧
    (LocalStorage.deleteObject ⟨[], []⟩ "/etc/passwd" = .error "Invalid storage key") ∧
    ("blobs/ab/abcd" = "blobs/ab/abcd" →
      ["srv", "objects", "blobs", "ab", "abcd"] =
          ["srv", "objects"] ++ pathParts "blobs/ab/abcd" ∧
        (pathParts "blobs/ab/abcd").contains ".." = false ∧
        keyIsAbsolute "blobs/ab/abcd" = false) := by
  refine ⟨?_, ?_, ?_⟩
  · exact (storage_key_path_safety ["srv", "objects"] "../secret" "u1" ⟨[], []⟩).1
      (Or.inr (by decide))
  · exact ((storage_key_path_safety ["srv", "objects"] "/etc/passwd" "u1" ⟨[], []⟩).1
      (Or.inl (by decide))).2.2.2.2
  · intro _
    exact (storage_key_path_safety ["srv", "objects"] "blobs/ab/abcd" "u1" ⟨[], []⟩).2
      ["srv", "objects", "blobs", "ab", "abcd"] (by rfl)

lemma rangeBoundsCheck_ok_bounds (start e total r1 r2 : Int)
    (h : rangeBoundsCheck start e total = .ok (r1, r2)) :
    0 ≤ r1 ∧ r1 ≤ r2 ∧ r2 < total := by
  unfold rangeBoundsCheck at h
  split at h
  · cases h
  · rename_i hcond
    push_neg at hcond
    have hv := Except.ok.inj h
    have h1 : start = r1 := congrArg Prod.fst hv
    have h2 : min e (total - 1) = r2 := congrArg Prod.snd hv
    omega

/-- C9: the `Range` header parser accepts only single ranges: a header not
of the `bytes=` form is an invalid-header error, a header holding several
comma-separated ranges is rejected, a syntactically valid range whose start
lies at or past the object size is unsatisfiable, every accepted range
`(s, e)` satisfies `0 ≤ s ≤ e < total`, and the three documented forms
`bytes=start-end`, `bytes=start-` and the suffix form `bytes=-N` (the last
`N` bytes) are accepted. -/
theorem parse_range_contract (h : String) (total : Int) :
    (h ≠ "" → strStartsWith h "bytes=" = false →
      parseRange (some h) total = .error "Invalid Range header") ∧
    (strStartsWith h "bytes=" = true →
      (pyStrip (h.drop 6)).toList.contains ',' = true →
      parseRange (some h) total = .error "Multiple byte ranges are not supported") ∧
    (∀ s e, parseRange (some h) total = .ok (some (s, e)) →
      0 ≤ s ∧ s ≤ e ∧ e < total) ∧
    (∀ s e, s ≥ total →
      rangeBoundsCheck s e total = .error "Requested range is not satisfiable") ∧
    (parseRange (some "bytes=0-99") 1000 = .ok (some (0, 99)) ∧
     parseRange (some "bytes=100-") 1000 = .ok (some (100, 999)) ∧
     parseRange (some "bytes=-100") 1000 = .ok (some (900, 999))) := by
  refine ⟨?_, ?_, ?_, ?_, by rfl, by rfl, by rfl⟩
  · intro hne hsw
    simp only [parseRange, if_neg hne, hsw, Bool.false_eq_true, not_false_iff,
      if_neg, if_pos]
  · intro hsw hcomma
    have hne : h ≠ "" := by
      intro h0
      subst h0
      exact absurd hsw (by decide)
    simp only [parseRange, if_neg hne, hsw, not_true, if_neg, if_pos, hcomma,
      not_false_iff]
  · intro s e hp
    by_cases h0 : h = ""
    · rw [parseRange, if_pos h0] at hp
      simp at hp
    · rw [parseRange, if_neg h0] at hp
      by_cases hsw : strStartsWith h "bytes=" = true
      · rw [if_neg (by simp [hsw])] at hp
        by_cases hcomma : (pyStrip (h.drop 6)).toList.contains ',' = true
        · rw [if_pos hcomma] at hp
          cases hp
        · rw [if_neg hcomma] at hp
          rcases hpd : partitionDash (pyStrip (h.drop 6)) with _ | ⟨a, b⟩
          · rw [hpd] at hp
            cases hp
          · rw [hpd] at hp
            dsimp only at hp
            by_cases hab : a = "" ∧ b = ""
            · rw [if_pos hab] at hp
              cases hp
            · rw [if_neg hab] at hp
              rcases hrf : rangeFromParts a b total with e1 | ⟨st, en⟩
              · rw [hrf] at hp
                cases hp
              · rw [hrf] at hp
                dsimp only at hp
                rcases hbc : rangeBoundsCheck st en total with e2 | ⟨r1, r2⟩
                · rw [hbc] at hp
                  cases hp
                · rw [hbc] at hp
                  have hv := Option.some.inj (Except.ok.inj hp)
                  rw [hv] at hbc
                  exact rangeBoundsCheck_ok_bounds st en total s e hbc
      · rw [if_pos (by simpa using hsw)] at hp
        cases hp
  · intro s e hge
    unfold rangeBoundsCheck
    rw [if_pos (Or.inr (Or.inr hge))]

/-- Witness for C9 at concrete headers: a non-`bytes=` header and a
multi-range header are client errors, an in-bounds accepted range satisfies
the bound property, and an out-of-bounds start is unsatisfiable. -/
theorem parse_range_contract_witness :
    parseRange (some "octets=0-5") 10 = .error "Invalid Range header" ∧
    parseRange (some "bytes=1-2,3-4") 10 = .error "Multiple byte ranges are not supported" ∧
    (0 ≤ (2 : Int) ∧ (2 : Int) ≤ 5 ∧ (5 : Int) < 10) ∧
    rangeBoundsCheck 12 15 10 = .error "Requested range is not satisfiable" := by
  refine ⟨?_, ?_, ?_, ?_⟩
  · exact (parse_range_contract "octets=0-5" 10).1 (by decide) (by rfl)
  · exact (parse_range_contract "bytes=1-2,3-4" 10).2.1 (by rfl) (by rfl)
  · exact (parse_range_contract "bytes=2-5" 10).2.2.1 2 5 (by rfl)
  · exact (parse_range_contract "bytes=2-5" 10).2.2.2.1 12 15 (by decide)

/-! ### Concrete sample data used by the witnesses -/

def cfgW : ServiceConfig := ⟨1000, 10000⟩

def chkW : String := "aaaaaaaaaaaaaaaaaaaaaaaaaaaaaaaaaaaaaaaaaaaaaaaaaaaaaaaaaaaaaaaa"

def sessU1 : UploadSession :=
  ⟨"u1", 7, "alpha", "d", "student projects", "py", "v1", true, "f.zip", none,
   3, 10, .UPLOADING, none, none⟩

def sessU2 : UploadSession :=
  ⟨"u2", 7, "beta", "d", "student projects", "py", "v1", true, "f.zip", none,
   3, 10, .UPLOADING, none, none⟩

def stW : SysState :=
  ⟨[], [], [], [sessU1, sessU2],
   ⟨[("u1", [1, 2, 3]), ("u2", [1, 2, 3])], []⟩, 1, 1, 1⟩

/-- C4: appending with an `expected_offset` different from the session's
current `bytes_received` on an existing, writable session is a conflict and
leaves the whole state — `bytes_received` and the stored temp object
included — untouched. -/
theorem append_offset_mismatch_conflict (st : SysState) (upload_id : String)
    (user_id expected_offset : Int) (chunks : List (List Nat)) (s : UploadSession)
    (hfind : getUploadSessionForUser st upload_id user_id = some s)
    (hw : ¬(s.status = .COMPLETED ∨ s.status = .FAILED ∨ s.status = .FINALIZING))
    (hoff : (s.bytes_received : Int) ≠ expected_offset) :
    appendUploadStream st upload_id user_id expected_offset chunks =
      (.error (.conflict "Upload offset mismatch"), st) := by
  unfold appendUploadStream
  rw [hfind]
  dsimp only
  rw [if_neg hw, if_pos hoff]

/-- Witness for C4: offset 5 clashes with the session's 3 bytes received. -/
theorem append_offset_mismatch_conflict_witness :
    appendUploadStream stW "u1" 7 5 [[9]] =
      (.error (.conflict "Upload offset mismatch"), stW) :=
  append_offset_mismatch_conflict stW "u1" 7 5 [[9]] sessU1 (by rfl) (by decide)
    (by decide)

/-- C5: an append whose stream would push the total past the session's
`max_size_bytes` fails mid-stream with a validation error, and the session
ends `FAILED` with `bytes_received` set from the storage backend's actual
temp-object size — the recorded offset equals exactly what is durably
stored. -/
theorem append_overflow_fails_with_ground_truth (st : SysState)
    (upload_id : String) (user_id expected_offset : Int)
    (chunks : List (List Nat)) (s : UploadSession)
    (hfind : getUploadSessionForUser st upload_id user_id = some s)
    (hw : ¬(s.status = .COMPLETED ∨ s.status = .FAILED ∨ s.status = .FINALIZING))
    (hoff : (s.bytes_received : Int) = expected_offset)
    (hbytes : 0 < sumLens chunks)
    (hover : expected_offset + (sumLens chunks : Int) > s.max_size_bytes) :
    (appendUploadStream st upload_id user_id expected_offset chunks).1 =
        .error (.validation "Upload exceeds maximum allowed file size") ∧
    ∃ s2, getUploadSessionForUser
        (appendUploadStream st upload_id user_id expected_offset chunks).2
        upload_id user_id = some s2 ∧
      s2.status = .FAILED ∧ s2.error_message = some "Chunk append failed" ∧
      s2.bytes_received =
        (appendUploadStream st upload_id user_id expected_offset chunks).2.storage.getUploadSize
          upload_id := by
  have hoff2 : ¬((s.bytes_received : Int) ≠ expected_offset) := fun hne => hne hoff
  unfold appendUploadStream
  rw [hfind]
  dsimp only
  rw [if_neg hw, if_neg hoff2]
  rcases hl : appendLoop upload_id expected_offset s.max_size_bytes
      (updateSession st { s with status := .UPLOADING }).storage 0 chunks with
    storageOk | storageF
  · rcases appendLoop_inl_le upload_id expected_offset s.max_size_bytes chunks
        _ 0 storageOk hl with h0 | hle
    · omega
    · exfalso
      push_cast at hle
      omega
  · dsimp only
    have ht : getUploadSessionForUser
        (updateSession st { s with status := .UPLOADING }) upload_id user_id =
        some { s with status := .UPLOADING } :=
      getUploadSessionForUser_update st upload_id user_id s _ hfind rfl rfl
    have htE : getUploadSessionForUser
        { updateSession st { s with status := .UPLOADING } with storage := storageF }
        upload_id user_id = some { s with status := .UPLOADING } := ht
    rw [htE]
    dsimp only
    refine ⟨rfl, ?_⟩
    refine
      ⟨{ { s with status := .UPLOADING } with
           status := .FAILED,
           bytes_received := storageF.getUploadSize upload_id,
           error_message := some "Chunk append failed" },
       ?_, rfl, rfl, rfl⟩
    exact getUploadSessionForUser_update _ upload_id user_id
      { s with status := .UPLOADING } _ htE rfl rfl

/-- Witness for C5: at offset 3 with maximum 10, a stream of 8 further bytes
overflows; the session ends `FAILED` holding the durable byte count. -/
theorem append_overflow_witness :
    (appendUploadStream stW "u1" 7 3 [[9, 9, 9, 9], [8, 8, 8, 8]]).1 =
        .error (.validation "Upload exceeds maximum allowed file size") ∧
    ∃ s2, getUploadSessionForUser
        (appendUploadStream stW "u1" 7 3 [[9, 9, 9, 9], [8, 8, 8, 8]]).2 "u1" 7 =
        some s2 ∧
      s2.status = .FAILED ∧ s2.error_message = some "Chunk append failed" ∧
      s2.bytes_received =
        (appendUploadStream stW "u1" 7 3 [[9, 9, 9, 9], [8, 8, 8, 8]]).2.storage.getUploadSize
          "u1" :=
  append_overflow_fails_with_ground_truth stW "u1" 7 3 [[9, 9, 9, 9], [8, 8, 8, 8]]
    sessU1 (by rfl) (by decide) (by decide) (by decide) (by decide)

def stEmpty : SysState := ⟨[], [], [], [], ⟨[], []⟩, 1, 1, 1⟩

/-- Counterexample for C7: a requested max size of `0` is NOT rejected with a
validation error — Python's `max_size_bytes or self.max_file_size_bytes`
treats `0` as falsy, so the request silently falls back to the server
ceiling and the session is created. -/
theorem init_zero_max_accepted :
    initUploadSession cfgW stEmpty 7 "gamma" "desc" "student projects" "py" "v1"
        true "p.zip" none (some 0) "u9" =
      .ok (⟨"u9", 0, 1000⟩,
        { stEmpty with sessions :=
            [⟨"u9", 7, "gamma", "desc", "student projects", "py", "v1", true,
              "p.zip", none, 0, 1000, .PENDING, none, none⟩] }) := by
  rfl

/-- C7 (amended): `init_upload_session` propagates the draft-validation
errors, rejects a category outside the allow-list and a file-name extension
outside the allow-list, and — for the max size — uses the requested value
except that `None` or `0` falls back to the server ceiling; a non-positive
effective value (a negative request) is rejected, as is a value exceeding
the server ceiling; on success the session row is created in state
`PENDING` with `bytes_received = 0`. -/
theorem init_upload_session_validation (cfg : ServiceConfig) (st : SysState)
    (user_id : Int) (pn pd pc pl pv : String) (pub : Bool) (fn : String)
    (ct : Option String) (msb : Option Int) (nid : String) :
    (∀ e, softwarePackageDraftValidate user_id (pyStrip pn) (pyStrip pd)
        (pyLower (pyStrip pc)) (pyStrip pl) (pyStrip pv) (pyStrip fn) = .error e →
      initUploadSession cfg st user_id pn pd pc pl pv pub fn ct msb nid = .error e) ∧
    (softwarePackageDraftValidate user_id (pyStrip pn) (pyStrip pd)
        (pyLower (pyStrip pc)) (pyStrip pl) (pyStrip pv) (pyStrip fn) = .ok () →
      ALLOWED_CATEGORIES.contains (pyLower (pyStrip pc)) = false →
      initUploadSession cfg st user_id pn pd pc pl pv pub fn ct msb nid =
        .error (.validation "Unsupported package category")) ∧
    (softwarePackageDraftValidate user_id (pyStrip pn) (pyStrip pd)
        (pyLower (pyStrip pc)) (pyStrip pl) (pyStrip pv) (pyStrip fn) = .ok () →
      ALLOWED_CATEGORIES.contains (pyLower (pyStrip pc)) = true →
      ∀ e, validateFileName (pyStrip fn) = .error e →
      initUploadSession cfg st user_id pn pd pc pl pv pub fn ct msb nid = .error e) ∧
    (softwarePackageDraftValidate user_id (pyStrip pn) (pyStrip pd)
        (pyLower (pyStrip pc)) (pyStrip pl) (pyStrip pv) (pyStrip fn) = .ok () →
      ALLOWED_CATEGORIES.contains (pyLower (pyStrip pc)) = true →
      validateFileName (pyStrip fn) = .ok () →
      (effectiveMaxSize cfg msb ≤ 0 →
        initUploadSession cfg st user_id pn pd pc pl pv pub fn ct msb nid =
          .error (.validation "Invalid max size")) ∧
      (0 < effectiveMaxSize cfg msb →
        effectiveMaxSize cfg msb > cfg.max_file_size_bytes →
        initUploadSession cfg st user_id pn pd pc pl pv pub fn ct msb nid =
          .error (.validation "Requested max size exceeds server limit")) ∧
      (0 < effectiveMaxSize cfg msb →
        effectiveMaxSize cfg msb ≤ cfg.max_file_size_bytes →
        initUploadSession cfg st user_id pn pd pc pl pv pub fn ct msb nid =
          .ok (⟨nid, 0, effectiveMaxSize cfg msb⟩,
            { st with sessions := st.sessions ++
                [⟨nid, user_id, pyStrip pn, pyStrip pd, pyLower (pyStrip pc),
                  pyStrip pl, pyStrip pv, pub, pyStrip fn, ct, 0,
                  effectiveMaxSize cfg msb, .PENDING, none, none⟩] }))) ∧
    (effectiveMaxSize cfg (some 0) = cfg.max_file_size_bytes ∧
     effectiveMaxSize cfg none = cfg.max_file_size_bytes) := by
  refine ⟨?_, ?_, ?_, ?_, by rfl, by rfl⟩
  · intro e hv
    unfold initUploadSession
    dsimp only
    rw [hv]
  · intro hv hcat
    unfold initUploadSession
    dsimp only
    rw [hv]
    dsimp only
    rw [if_pos (by simpa using hcat)]
  · intro hv hcat e hext
    unfold initUploadSession
    dsimp only
    rw [hv]
    dsimp only
    rw [if_neg (by simpa using hcat), hext]
  · intro hv hcat hext
    refine ⟨?_, ?_, ?_⟩
    · intro hle
      unfold initUploadSession
      dsimp only
      rw [hv]
      dsimp only
      rw [if_neg (by simpa using hcat), hext]
      dsimp only
      rw [if_pos hle]
    · intro hpos hgt
      unfold initUploadSession
      dsimp only
      rw [hv]
      dsimp only
      rw [if_neg (by simpa using hcat), hext]
      dsimp only
      rw [if_neg (by omega), if_pos hgt]
    · intro hpos hle
      unfold initUploadSession
      dsimp only
      rw [hv]
      dsimp only
      rw [if_neg (by simpa using hcat), hext]
      dsimp only
      rw [if_neg (by omega), if_neg (by omega)]

/-- Witness for C7 (amended) at concrete inputs: a requested size within the
ceiling creates the `PENDING` row; a negative requested size is rejected; an
oversized request is rejected. -/
theorem init_upload_session_validation_witness :
    initUploadSession cfgW stEmpty 7 "gamma" "desc" "student projects" "py" "v1"
        true "p.zip" none (some 500) "u9" =
      .ok (⟨"u9", 0, 500⟩,
        { stEmpty with sessions :=
            [⟨"u9", 7, "gamma", "desc", "student projects", "py", "v1", true,
              "p.zip", none, 0, 500, .PENDING, none, none⟩] }) ∧
    initUploadSession cfgW stEmpty 7 "gamma" "desc" "student projects" "py" "v1"
        true "p.zip" none (some (-5)) "u9" =
      .error (.validation "Invalid max size") ∧
    initUploadSession cfgW stEmpty 7 "gamma" "desc" "student projects" "py" "v1"
        true "p.zip" none (some 5000) "u9" =
      .error (.validation "Requested max size exceeds server limit") := by
  refine ⟨?_, ?_, ?_⟩
  · exact (((init_upload_session_validation cfgW stEmpty 7 "gamma" "desc"
      "student projects" "py" "v1" true "p.zip" none (some 500) "u9").2.2.2.1
      (by rfl) (by rfl) (by rfl)).2.2 (by decide) (by decide))
  · exact (((init_upload_session_validation cfgW stEmpty 7 "gamma" "desc"
      "student projects" "py" "v1" true "p.zip" none (some (-5)) "u9").2.2.2.1
      (by rfl) (by rfl) (by rfl)).1 (by decide))
  · exact (((init_upload_session_validation cfgW stEmpty 7 "gamma" "desc"
      "student projects" "py" "v1" true "p.zip" none (some 5000) "u9").2.2.2.1
      (by rfl) (by rfl) (by rfl)).2.1 (by decide) (by decide))

lemma finalizeCommit_ok_session (st : SysState) (A : String) (uid : Int)
    (c : String) (n : Nat) (s : UploadSession) (blob : FileBlob) (v : Nat)
    (st2 : SysState) (h : finalizeCommit st A uid c n s blob = (.ok v, st2)) :
    ∃ s2, getUploadSessionForUser st2 A uid = some s2 ∧
      s2.status = .COMPLETED ∧ s2.completed_file_version_id = some v := by
  unfold finalizeCommit at h
  dsimp only at h
  split at h
  · simp at h
  · split at h
    · simp at h
    · rename_i s2 heq
      have hv := congrArg Prod.fst h
      have hst := congrArg Prod.snd h
      dsimp only at hv hst
      rw [← hst]
      refine ⟨_, getUploadSessionForUser_update _ A uid s2 _ heq rfl rfl, rfl, ?_⟩
      exact congrArg some (Except.ok.inj hv)

lemma finalizeBlobPhase_ok_session (st : SysState) (A : String) (uid : Int)
    (c : String) (n : Nat) (key : String) (s : UploadSession) (v : Nat)
    (st2 : SysState) (h : finalizeBlobPhase st A uid c n key s = (.ok v, st2)) :
    ∃ s2, getUploadSessionForUser st2 A uid = some s2 ∧
      s2.status = .COMPLETED ∧ s2.completed_file_version_id = some v := by
  unfold finalizeBlobPhase at h
  dsimp only at h
  split at h
  · exact finalizeCommit_ok_session _ A uid c n s _ v st2 h
  · split at h
    · simp at h
    · split at h
      · exact finalizeCommit_ok_session _ A uid c n s _ v st2 h
      · exact finalizeCommit_ok_session _ A uid c n s _ v st2 h

lemma finalizePhase2_ok_session (cfg : ServiceConfig) (st : SysState) (A : String)
    (uid : Int) (c : String) (n : Nat) (s : UploadSession) (v : Nat)
    (st2 : SysState)
    (h : finalizePhase2 cfg st A uid c n s = (.ok v, st2)) :
    ∃ s2, getUploadSessionForUser st2 A uid = some s2 ∧
      s2.status = .COMPLETED ∧ s2.completed_file_version_id = some v := by
  unfold finalizePhase2 at h
  dsimp only at h
  split at h
  · simp at h
  · split at h
    · simp at h
    · split at h
      · simp at h
      · split at h
        · simp at h
        · split at h
          · simp at h
          · exact finalizeBlobPhase_ok_session _ A uid c n _ s v st2 h

lemma finalize_ok_session (cfg : ServiceConfig) (st : SysState) (A : String)
    (uid : Int) (c : String) (n : Nat) (v : Nat) (st2 : SysState)
    (h : finalizeUploadWithChecksum cfg st A uid c n = (.ok v, st2)) :
    ∃ s2, getUploadSessionForUser st2 A uid = some s2 ∧
      s2.status = .COMPLETED ∧ s2.completed_file_version_id = some v := by
  unfold finalizeUploadWithChecksum at h
  split at h
  · simp at h
  · rename_i s hfind
    split at h
    · split at h
      · simp at h
      · rename_i vid hvid
        have hv : vid = v := by
          have := congrArg Prod.fst h
          exact Except.ok.inj this
        have hst : st = st2 := congrArg Prod.snd h
        subst hst
        exact ⟨s, hfind, by assumption, by rw [← hv]; assumption⟩
    · simp at h
    · simp at h
    · split at h
      · simp at h
      · exact finalizePhase2_ok_session cfg _ A uid c n _ v st2 h

/-- C3: finalize is idempotent on a completed session — a successful finalize
leaves the session `COMPLETED` pointing at the returned FileVersion id, and a
second finalize call returns the same id with the state (hence the Blob and
FileVersion tables) completely unchanged; finalize refuses `FAILED` and
`FINALIZING` sessions with a conflict. -/
theorem finalize_idempotent_and_refusals (cfg : ServiceConfig) (st : SysState)
    (A : String) (uid : Int) (c : String) (n : Nat) :
    (∀ v st2, finalizeUploadWithChecksum cfg st A uid c n = (.ok v, st2) →
      finalizeUploadWithChecksum cfg st2 A uid c n = (.ok v, st2)) ∧
    (∀ s, getUploadSessionForUser st A uid = some s → s.status = .FAILED →
      finalizeUploadWithChecksum cfg st A uid c n =
        (.error (.conflict "Upload session failed and cannot be completed"), st)) ∧
    (∀ s, getUploadSessionForUser st A uid = some s → s.status = .FINALIZING →
      finalizeUploadWithChecksum cfg st A uid c n =
        (.error (.conflict "Upload session is already finalizing"), st)) := by
  refine ⟨?_, ?_, ?_⟩
  · intro v st2 h
    obtain ⟨s2, hl, hc, hp⟩ := finalize_ok_session cfg st A uid c n v st2 h
    unfold finalizeUploadWithChecksum
    rw [hl]
    dsimp only
    rw [hc]
    dsimp only
    rw [hp]
  · intro s hfind hs
    unfold finalizeUploadWithChecksum
    rw [hfind]
    dsimp only
    rw [hs]
  · intro s hfind hs
    unfold finalizeUploadWithChecksum
    rw [hfind]
    dsimp only
    rw [hs]

def sessF : UploadSession :=
  ⟨"uf", 7, "p", "d", "student projects", "py", "v1", true, "f.zip", none,
   3, 10, .FAILED, none, none⟩

def sessZ : UploadSession :=
  ⟨"uz", 7, "p", "d", "student projects", "py", "v1", true, "f.zip", none,
   3, 10, .FINALIZING, none, none⟩

def stTerm : SysState := ⟨[], [], [], [sessF, sessZ], ⟨[], []⟩, 1, 1, 1⟩

/-- Witness for C3: a concrete successful finalize replayed returns the same
FileVersion id with the state unchanged, and concrete `FAILED` /
`FINALIZING` sessions are refused with conflicts. -/
theorem finalize_idempotent_witness :
    finalizeUploadWithChecksum cfgW
        (finalizeUploadWithChecksum cfgW stW "u1" 7 chkW 3).2 "u1" 7 chkW 3 =
      (.ok 1, (finalizeUploadWithChecksum cfgW stW "u1" 7 chkW 3).2) ∧
    finalizeUploadWithChecksum cfgW stTerm "uf" 7 chkW 3 =
      (.error (.conflict "Upload session failed and cannot be completed"), stTerm) ∧
    finalizeUploadWithChecksum cfgW stTerm "uz" 7 chkW 3 =
      (.error (.conflict "Upload session is already finalizing"), stTerm) := by
  refine ⟨?_, ?_, ?_⟩
  · exact (finalize_idempotent_and_refusals cfgW stW "u1" 7 chkW 3).1 1 _ (by rfl)
  · exact (finalize_idempotent_and_refusals cfgW stTerm "uf" 7 chkW 3).2.1 sessF
      (by rfl) (by rfl)
  · exact (finalize_idempotent_and_refusals cfgW stTerm "uz" 7 chkW 3).2.2 sessZ
      (by rfl) (by rfl)

/-- C6: when the FileVersion insert of the final finalize transaction hits
the `(package, version)` uniqueness constraint, that whole transaction rolls
back (no version row is added and the package upsert is discarded), the
compensating transaction decrements the blob's reference count, the session
is marked `FAILED` with the duplicate-version message, and the error
surfaces as a conflict, not a validation error.  The last conjunct records
that the decrement exactly undoes the reference-count increment applied
earlier in the same finalize. -/
theorem finalize_version_conflict_compensation (st : SysState) (A : String)
    (uid : Int) (c : String) (n : Nat) (s : UploadSession) (blob : FileBlob)
    (hblob : getBlobByChecksumAndSize st c n = some blob)
    (hfind : getUploadSessionForUser st A uid = some s)
    (hconflict : fileVersionConflict
      (upsertPackage st uid s.package_name s.package_description
        s.package_category s.package_language s.is_public s.package_version).2
      (upsertPackage st uid s.package_name s.package_description
        s.package_category s.package_language s.is_public s.package_version).1.id
      s.package_version = true) :
    finalizeCommit st A uid c n s blob =
      (.error (.conflict "Package version already exists"),
       updateSession (updateBlob st (decrementBlobRefcount blob))
         { s with status := .FAILED,
                  error_message := some "Version already exists for this package" }) ∧
    (updateSession (updateBlob st (decrementBlobRefcount blob))
       { s with status := .FAILED,
                error_message := some "Version already exists for this package" }).versions
      = st.versions ∧
    (updateSession (updateBlob st (decrementBlobRefcount blob))
       { s with status := .FAILED,
                error_message := some "Version already exists for this package" }).packages
      = st.packages ∧
    (∀ b0, blob = incrementBlobRefcount b0 →
      (decrementBlobRefcount blob).reference_count = b0.reference_count) := by
  refine ⟨?_, rfl, rfl, ?_⟩
  · unfold finalizeCommit
    dsimp only
    rw [if_pos hconflict, hblob]
    dsimp only
    rw [if_pos rfl]
    have hfind2 : getUploadSessionForUser
        (updateBlob st (decrementBlobRefcount blob)) A uid = some s := hfind
    rw [hfind2]
  · intro b0 hb
    subst hb
    simp [decrementBlobRefcount, incrementBlobRefcount]

def blobC6 : FileBlob := ⟨1, chkW, 3, "k", 2⟩

def stC6 : SysState :=
  ⟨[blobC6], [⟨1, 1, 1, "f.zip", none, "v1", 3, chkW, 0⟩],
   [⟨1, 7, "alpha", "d", "student projects", "py", true, some "v1"⟩],
   [sessU1], ⟨[], []⟩, 2, 2, 2⟩

/-- Witness for C6: a concrete mid-finalize state whose `(package, version)`
pair already exists; the commit rolls back, compensates the reference count
(2 back down to 1) and fails the session with a conflict. -/
theorem finalize_version_conflict_compensation_witness :
    finalizeCommit stC6 "u1" 7 chkW 3 sessU1 blobC6 =
      (.error (.conflict "Package version already exists"),
       updateSession (updateBlob stC6 (decrementBlobRefcount blobC6))
         { sessU1 with status := .FAILED,
                       error_message := some "Version already exists for this package" }) ∧
    (decrementBlobRefcount blobC6).reference_count = 1 := by
  constructor
  · exact (finalize_version_conflict_compensation stC6 "u1" 7 chkW 3 sessU1 blobC6
      (by rfl) (by rfl) (by rfl)).1
  · exact (finalize_version_conflict_compensation stC6 "u1" 7 chkW 3 sessU1 blobC6
      (by rfl) (by rfl) (by rfl)).2.2.2 ⟨1, chkW, 3, "k", 1⟩ (by rfl)

/-- The C1 scenario start state: two upload sessions of the same user with
fully received payloads of the same content (same checksum, same size) under
two different package names, over empty database tables. -/
def c1St0 (uid : Int) (pA dA catA langA verA : String) (pubA : Bool)
    (fnA : String) (ctA : Option String) (pB dB catB langB verB : String)
    (pubB : Bool) (fnB : String) (ctB : Option String) (n : Nat) (maxsz : Int)
    (content1 content2 : List Nat) : SysState :=
  ⟨[], [], [],
   [⟨"u1", uid, pA, dA, catA, langA, verA, pubA, fnA, ctA, n, maxsz,
     .UPLOADING, none, none⟩,
    ⟨"u2", uid, pB, dB, catB, langB, verB, pubB, fnB, ctB, n, maxsz,
     .UPLOADING, none, none⟩],
   ⟨[("u1", content1), ("u2", content2)], []⟩, 1, 1, 1⟩

/-- C1: finalizing the same byte content twice under two different package
names creates two FileVersion rows referencing one Blob row whose
`reference_count` reaches 2; deleting the package holding one FileVersion
decrements the count to 1 and leaves the physical storage object in place;
deleting the second decrements it to 0 and removes both the Blob row and the
physical object. -/
theorem blob_dedup_refcount_lifecycle
    (uid : Int) (c : String) (n : Nat) (maxsz quota maxfile : Int)
    (pA dA catA langA verA : String) (pubA : Bool) (fnA : String)
    (ctA : Option String) (pB dB catB langB verB : String) (pubB : Bool)
    (fnB : String) (ctB : Option String) (content1 content2 : List Nat)
    (hname : pA ≠ pB)
    (hverA : pyStrip verA ≠ "") (hverB : pyStrip verB ≠ "")
    (hc : c.length = 64) (hkey : objectKeyOk (buildStorageKey c) = true)
    (hn : n ≠ 0) (hmax : (n : Int) ≤ maxsz)
    (hquota : (n : Int) + (n : Int) ≤ quota) :
    let cfg : ServiceConfig := ⟨maxfile, quota⟩
    let st0 := c1St0 uid pA dA catA langA verA pubA fnA ctA pB dB catB langB
      verB pubB fnB ctB n maxsz content1 content2
    let r1 := finalizeUploadWithChecksum cfg st0 "u1" uid c n
    let r2 := finalizeUploadWithChecksum cfg r1.2 "u2" uid c n
    let r3 := deletePackageForOwner r2.2 1 uid
    let r4 := deletePackageForOwner r3.2 2 uid
    r1.1 = .ok 1 ∧
    r1.2.blobs.map (fun b => (b.checksum_sha256, b.size_bytes, b.reference_count)) =
      [(c, n, 1)] ∧
    r2.1 = .ok 2 ∧
    r2.2.blobs.map (fun b => (b.checksum_sha256, b.size_bytes, b.reference_count)) =
      [(c, n, 2)] ∧
    r2.2.versions.map (fun v => (v.id, v.package_id, v.blob_id)) =
      [(1, 1, 1), (2, 2, 1)] ∧
    lookupA r2.2.storage.objects (buildStorageKey c) = some content1 ∧
    (r3.1 = .ok () ∧
     r3.2.blobs.map (fun b => (b.checksum_sha256, b.size_bytes, b.reference_count)) =
       [(c, n, 1)] ∧
     lookupA r3.2.storage.objects (buildStorageKey c) = some content1) ∧
    (r4.1 = .ok () ∧ r4.2.blobs = [] ∧ r4.2.versions = [] ∧
     lookupA r4.2.storage.objects (buildStorageKey c) = none) := by
  have hnameB : (pA == pB) = false := by simpa using hname
  have hmax' : ¬((n : Int) > maxsz) := by omega
  have hq1 : ¬((n : Int) > quota) := by omega
  have hq1b : ¬(((0 : Nat) : Int) + (n : Int) > quota) := by
    push_cast
    omega
  have hq2 : ¬(((n : Nat) : Int) + (n : Int) > quota) := by omega
  have e1 : finalizeUploadWithChecksum ⟨maxfile, quota⟩
      (c1St0 uid pA dA catA langA verA pubA fnA ctA pB dB catB langB verB pubB
        fnB ctB n maxsz content1 content2) "u1" uid c n =
      (.ok 1,
       ⟨[⟨1, c, n, buildStorageKey c, 1⟩],
        [⟨1, 1, 1, fnA, ctA, verA, n, c, 0⟩],
        [⟨1, uid, pA, dA, catA, langA, pubA, some verA⟩],
        [⟨"u1", uid, pA, dA, catA, langA, verA, pubA, fnA, ctA, n, maxsz,
          .COMPLETED, none, some 1⟩,
         ⟨"u2", uid, pB, dB, catB, langB, verB, pubB, fnB, ctB, n, maxsz,
          .UPLOADING, none, none⟩],
        ⟨[("u2", content2)], [(buildStorageKey c, content1)]⟩, 2, 2, 2⟩) := by
    simp [c1St0, finalizeUploadWithChecksum, finalizePhase2, finalizeBlobPhase,
      finalizeCommit, fileVersionDraftValidate, noOpScanStream,
      getUploadSessionForUser, updateSession, getBlobByChecksumAndSize,
      updateBlob, incrementBlobRefcount, addBlob, getPackageById,
      getPackageByOwnerAndName, updatePackage, upsertPackage,
      fileVersionConflict, addFileVersion, getTotalUploadedBytesForUser,
      LocalStorage.abortUpload, LocalStorage.promoteUpload, lookupA, setA,
      removeA, hn, hnameB, hc, hkey, hmax', hq1, hq1b, hq2, hverA, hverB,
      List.find?]
  have e2 : finalizeUploadWithChecksum ⟨maxfile, quota⟩
      (⟨[⟨1, c, n, buildStorageKey c, 1⟩],
        [⟨1, 1, 1, fnA, ctA, verA, n, c, 0⟩],
        [⟨1, uid, pA, dA, catA, langA, pubA, some verA⟩],
        [⟨"u1", uid, pA, dA, catA, langA, verA, pubA, fnA, ctA, n, maxsz,
          .COMPLETED, none, some 1⟩,
         ⟨"u2", uid, pB, dB, catB, langB, verB, pubB, fnB, ctB, n, maxsz,
          .UPLOADING, none, none⟩],
        ⟨[("u2", content2)], [(buildStorageKey c, content1)]⟩, 2, 2, 2⟩ : SysState)
      "u2" uid c n =
      (.ok 2,
       ⟨[⟨1, c, n, buildStorageKey c, 2⟩],
        [⟨1, 1, 1, fnA, ctA, verA, n, c, 0⟩, ⟨2, 2, 1, fnB, ctB, verB, n, c, 0⟩],
        [⟨1, uid, pA, dA, catA, langA, pubA, some verA⟩,
         ⟨2, uid, pB, dB, catB, langB, pubB, some verB⟩],
        [⟨"u1", uid, pA, dA, catA, langA, verA, pubA, fnA, ctA, n, maxsz,
          .COMPLETED, none, some 1⟩,
         ⟨"u2", uid, pB, dB, catB, langB, verB, pubB, fnB, ctB, n, maxsz,
          .COMPLETED, none, some 2⟩],
        ⟨[], [(buildStorageKey c, content1)]⟩, 2, 3, 3⟩) := by
    simp [finalizeUploadWithChecksum, finalizePhase2, finalizeBlobPhase,
      finalizeCommit, fileVersionDraftValidate, noOpScanStream,
      getUploadSessionForUser, updateSession, getBlobByChecksumAndSize,
      updateBlob, incrementBlobRefcount, addBlob, getPackageById,
      getPackageByOwnerAndName, updatePackage, upsertPackage,
      fileVersionConflict, addFileVersion, getTotalUploadedBytesForUser,
      LocalStorage.abortUpload, LocalStorage.promoteUpload, lookupA, setA,
      removeA, hn, hnameB, hc, hkey, hmax', hq1, hq1b, hq2, hverA, hverB,
      List.find?]
  have e3 : deletePackageForOwner
      (⟨[⟨1, c, n, buildStorageKey c, 2⟩],
        [⟨1, 1, 1, fnA, ctA, verA, n, c, 0⟩, ⟨2, 2, 1, fnB, ctB, verB, n, c, 0⟩],
        [⟨1, uid, pA, dA, catA, langA, pubA, some verA⟩,
         ⟨2, uid, pB, dB, catB, langB, pubB, some verB⟩],
        [⟨"u1", uid, pA, dA, catA, langA, verA, pubA, fnA, ctA, n, maxsz,
          .COMPLETED, none, some 1⟩,
         ⟨"u2", uid, pB, dB, catB, langB, verB, pubB, fnB, ctB, n, maxsz,
          .COMPLETED, none, some 2⟩],
        ⟨[], [(buildStorageKey c, content1)]⟩, 2, 3, 3⟩ : SysState) 1 uid =
      (.ok (),
       ⟨[⟨1, c, n, buildStorageKey c, 1⟩],
        [⟨2, 2, 1, fnB, ctB, verB, n, c, 0⟩],
        [⟨2, uid, pB, dB, catB, langB, pubB, some verB⟩],
        [⟨"u1", uid, pA, dA, catA, langA, verA, pubA, fnA, ctA, n, maxsz,
          .COMPLETED, none, some 1⟩,
         ⟨"u2", uid, pB, dB, catB, langB, verB, pubB, fnB, ctB, n, maxsz,
          .COMPLETED, none, some 2⟩],
        ⟨[], [(buildStorageKey c, content1)]⟩, 2, 3, 3⟩) := by
    simp [deletePackageForOwner, getPackageById, listAllFileVersionsForPackage,
      deleteVersionsLoop, getBlobById, deleteFileVersionRow, deleteBlobRow,
      deletePackageRow, updateBlob, decrementBlobRefcount,
      deleteObjectsBestEffort, List.find?]
  have e4 : deletePackageForOwner
      (⟨[⟨1, c, n, buildStorageKey c, 1⟩],
        [⟨2, 2, 1, fnB, ctB, verB, n, c, 0⟩],
        [⟨2, uid, pB, dB, catB, langB, pubB, some verB⟩],
        [⟨"u1", uid, pA, dA, catA, langA, verA, pubA, fnA, ctA, n, maxsz,
          .COMPLETED, none, some 1⟩,
         ⟨"u2", uid, pB, dB, catB, langB, verB, pubB, fnB, ctB, n, maxsz,
          .COMPLETED, none, some 2⟩],
        ⟨[], [(buildStorageKey c, content1)]⟩, 2, 3, 3⟩ : SysState) 2 uid =
      (.ok (),
       ⟨[], [], [],
        [⟨"u1", uid, pA, dA, catA, langA, verA, pubA, fnA, ctA, n, maxsz,
          .COMPLETED, none, some 1⟩,
         ⟨"u2", uid, pB, dB, catB, langB, verB, pubB, fnB, ctB, n, maxsz,
          .COMPLETED, none, some 2⟩],
        ⟨[], []⟩, 2, 3, 3⟩) := by
    simp [deletePackageForOwner, getPackageById, listAllFileVersionsForPackage,
      deleteVersionsLoop, getBlobById, deleteFileVersionRow, deleteBlobRow,
      deletePackageRow, updateBlob, decrementBlobRefcount,
      deleteObjectsBestEffort, LocalStorage.deleteObject, lookupA, removeA,
      hkey, List.find?]
  dsimp only
  rw [e1]
  dsimp only
  rw [e2]
  dsimp only
  rw [e3]
  dsimp only
  rw [e4]
  simp [lookupA, List.find?]

/-- Witness for C1 at fully concrete inputs: user 7 uploads the same 3-byte
content under packages `alpha` and `beta`, then deletes both packages. -/
theorem blob_dedup_refcount_lifecycle_witness :
    let cfg : ServiceConfig := ⟨1000, 100⟩
    let st0 := c1St0 7 "alpha" "d" "cat" "py" "v1" true "f.zip" none "beta" "d"
      "cat" "py" "v1" true "f.zip" none 3 10 [1, 2, 3] [1, 2, 3]
    let r1 := finalizeUploadWithChecksum cfg st0 "u1" 7 chkW 3
    let r2 := finalizeUploadWithChecksum cfg r1.2 "u2" 7 chkW 3
    let r3 := deletePackageForOwner r2.2 1 7
    let r4 := deletePackageForOwner r3.2 2 7
    r1.1 = .ok 1 ∧
    r1.2.blobs.map (fun b => (b.checksum_sha256, b.size_bytes, b.reference_count)) =
      [(chkW, 3, 1)] ∧
    r2.1 = .ok 2 ∧
    r2.2.blobs.map (fun b => (b.checksum_sha256, b.size_bytes, b.reference_count)) =
      [(chkW, 3, 2)] ∧
    r2.2.versions.map (fun v => (v.id, v.package_id, v.blob_id)) =
      [(1, 1, 1), (2, 2, 1)] ∧
    lookupA r2.2.storage.objects (buildStorageKey chkW) = some [1, 2, 3] ∧
    (r3.1 = .ok () ∧
     r3.2.blobs.map (fun b => (b.checksum_sha256, b.size_bytes, b.reference_count)) =
       [(chkW, 3, 1)] ∧
     lookupA r3.2.storage.objects (buildStorageKey chkW) = some [1, 2, 3]) ∧
    (r4.1 = .ok () ∧ r4.2.blobs = [] ∧ r4.2.versions = [] ∧
     lookupA r4.2.storage.objects (buildStorageKey chkW) = none) :=
  blob_dedup_refcount_lifecycle 7 chkW 3 10 100 1000 "alpha" "d" "cat" "py" "v1"
    true "f.zip" none "beta" "d" "cat" "py" "v1" true "f.zip" none [1, 2, 3]
    [1, 2, 3] (by decide) (by decide) (by decide) (by decide) (by decide)
    (by decide) (by decide) (by decide)

end Techpulse
